import Mathlib

/-
Shallow embedding of videojs-record src/js/engine/record-engine.js
(class RecordEngine) and proofs about its operations.

Modelling conventions:
- JS exceptions are modelled by the inductive type JSErr; fallible
  operations return Except JSErr.  TypeError is the constructor
  JSErr.typeErr; every other error category is JSErr.otherErr with a
  numeric payload so that re-raising "unchanged" is observable.
- Blob/File inputs are modelled by the structure FileObj.  Whether a
  given property assignment on the object succeeds or throws on the
  current platform is recorded per field (setLastModifiedThrows,
  setLastModifiedDateThrows, setNameThrows): none means the assignment
  succeeds, some e means the assignment raises e.  This captures the
  platforms on which blob metadata fields are read-only getters, whose
  assignment in strict-mode code raises TypeError.
- A JS Date value is modelled by its millisecond epoch value (Nat);
  Date.getTime() is the identity on that value, and number-to-string
  coercion in string concatenation is Nat.repr.
- Observable side effects (event triggering, URL creation/revocation,
  DOM anchor manipulation, delegation to legacy save APIs) are recorded
  in an effect trace (List Eff, List SaveEff) returned next to the new
  state.
-/

/-- Error categories a JS statement can raise: TypeError versus every
other error type (carrying a payload so unchanged re-raising is
observable). -/
inductive JSErr where
  | typeErr
  | otherErr (code : Nat)
deriving DecidableEq

/-- Model of a JS return value: undefined (a function body without a
return statement), or the value returned by one of the legacy
msSaveOrOpenBlob / msSaveBlob calls that saveAs delegates to. -/
inductive JSRet where
  | undef
  | msSaveOrOpenBlobResult (fileName : Option String)
  | msSaveBlobResult (fileName : Option String)
deriving DecidableEq

/-- Model of a Blob or File object as seen by addFileInfo.  isBlob /
isFile model the two instanceof checks; type is the MIME type string;
lastModified, lastModifiedDate and name are the metadata fields the
method attempts to write.  The three set...Throws fields record, per
property, whether assignment on this platform succeeds (none) or raises
an error (some e). -/
structure FileObj where
  isBlob : Bool
  isFile : Bool
  type : String
  lastModified : Option Nat
  lastModifiedDate : Option Nat
  name : Option String
  setLastModifiedThrows : Option JSErr
  setLastModifiedDateThrows : Option JSErr
  setNameThrows : Option JSErr
deriving DecidableEq

/-- JS String.prototype.split with a one-character separator, as used by
the source (type.split for the slash and the extension split for the
semicolon): splits at every occurrence, keeping empty segments, and
returns a singleton list when the separator does not occur. -/
def splitCharAux : List Char → Char → List Char → List String
  | [], _, acc => [String.mk acc.reverse]
  | c :: rest, sep, acc =>
      if c = sep then String.mk acc.reverse :: splitCharAux rest sep []
      else splitCharAux rest sep (c :: acc)

/-- String split on a single character, JS split semantics. -/
def jsSplitChar (s : String) (sep : Char) : List String :=
  splitCharAux s.toList sep []

/-- JS s.indexOf(c) > -1 for a one-character search string c. -/
def strContainsChar (s : String) (c : Char) : Bool :=
  s.toList.contains c

/-- Extension derivation from addFileInfo:
fileExtension = s!. plus type.split(slash) index 1 (JS yields undefined
when the index is out of range, and string concatenation renders it as
the text undefined); if the result contains a semicolon it is truncated
at the first semicolon, mirroring
  let fileExtension = s!. + fileObj.type.split(s!/)[1];
  if (fileExtension.indexOf(s!;) > -1) \x7b
      fileExtension = fileExtension.split(s!;)[0];
  \x7d -/
def jsFileExtension (mime : String) : String :=
  let sub : String :=
    match (jsSplitChar mime '/').get? 1 with
    | some s => s
    | none => "undefined"
  let fileExtension := "." ++ sub
  if strContainsChar fileExtension ';' then
    (jsSplitChar fileExtension ';').headD ""
  else
    fileExtension

/-- First try block of addFileInfo: assign lastModified and
lastModifiedDate; a TypeError raised by either assignment is caught and
discarded (abandoning the rest of the try block), any other error is
re-raised. -/
def setTimestampFields (now : Nat) (fileObj : FileObj) : Except JSErr FileObj :=
  match fileObj.setLastModifiedThrows with
  | none =>
      let fo1 := { fileObj with lastModified := some now }
      match fileObj.setLastModifiedDateThrows with
      | none => Except.ok { fo1 with lastModifiedDate := some now }
      | some JSErr.typeErr => Except.ok fo1
      | some e => Except.error e
  | some JSErr.typeErr => Except.ok fileObj
  | some e => Except.error e

/-- RecordEngine.addFileInfo: if the input is a Blob or File, stamp
lastModified / lastModifiedDate with the current time, derive a file
extension from the MIME type, and assign name = epochMillis plus
extension; TypeError from a property assignment is swallowed, other
errors propagate; non-blob non-file inputs are left untouched. -/
def addFileInfo (now : Nat) (fileObj : FileObj) : Except JSErr FileObj :=
  if fileObj.isBlob || fileObj.isFile then
    match setTimestampFields now fileObj with
    | Except.error e => Except.error e
    | Except.ok fo1 =>
        let fileExtension := jsFileExtension fo1.type
        match fo1.setNameThrows with
        | none => Except.ok { fo1 with name := some (Nat.repr now ++ fileExtension) }
        | some JSErr.typeErr => Except.ok fo1
        | some e => Except.error e
  else
    Except.ok fileObj

/-- Engine state: the single piece of mutable instance state this class
owns, the recordedData reference (undefined before the first
recording). -/
structure EngineState where
  recordedData : Option FileObj
deriving DecidableEq

/-- Observable effects of the engine lifecycle operations. -/
inductive Eff where
  | setRecordedData (d : FileObj)
  | callAddFileInfo (d : FileObj)
  | callDispose
  | revokeObjectURL (d : FileObj)
  | triggerEvent (ev : String)
deriving DecidableEq

/-- RecordEngine.dispose: revoke the object URL of the previous
recording when recordedData is defined, otherwise do nothing.  The
instance state is never modified and the operation cannot throw (it is
total). -/
def dispose (st : EngineState) : EngineState × List Eff :=
  (st,
    match st.recordedData with
    | some d => [Eff.revokeObjectURL d]
    | none => [])

/-- RecordEngine.onStopRecording: store the blob as recordedData, stamp
it via addFileInfo (which mutates the stored object in place), call
dispose, and trigger the recordComplete event.  The JS method returns
undefined; an error re-raised out of addFileInfo propagates. -/
def onStopRecording (now : Nat) (st : EngineState) (data : FileObj) :
    Except JSErr (EngineState × List Eff × JSRet) :=
  let st1 : EngineState := { st with recordedData := some data }
  match addFileInfo now data with
  | Except.error e => Except.error e
  | Except.ok data1 =>
      let st2 : EngineState := { st1 with recordedData := some data1 }
      let (st3, disposeEffs) := dispose st2
      Except.ok (st3,
        Eff.setRecordedData data :: Eff.callAddFileInfo data ::
          Eff.callDispose :: disposeEffs ++ [Eff.triggerEvent "recordComplete"],
        JSRet.undef)

/-- Platform capabilities probed by saveAs: presence of the two legacy
blob-save navigator APIs, and whether anchor.click is a function. -/
structure Platform where
  hasMsSaveOrOpenBlob : Bool
  hasMsSaveBlob : Bool
  anchorClickIsFunction : Bool
deriving DecidableEq

/-- Observable effects of saveAs. -/
inductive SaveEff where
  | callMsSaveOrOpenBlob (d : Option FileObj) (fileName : Option String)
  | callMsSaveBlob (d : Option FileObj) (fileName : Option String)
  | createAnchorElement
  | createObjectURL (d : Option FileObj) (url : String)
  | setHref (url : String)
  | setDownload (fileName : Option String)
  | setStyleHidden
  | appendChildToBody
  | clickAnchor
  | dispatchSyntheticClick
  | revokeObjectURL (url : String)
deriving DecidableEq

/-- URL.createObjectURL: the browser mints a fresh, non-empty blob URL;
modelled as the scheme prefix applied to a fresh counter. -/
def freshObjectURL (counter : Nat) : String :=
  "blob:" ++ Nat.repr counter

/-- RecordEngine.saveAs: default the data argument to recordedData, take
the first value of the name mapping as file name, delegate to a legacy
save API when one exists (returning its result), otherwise create an
anchor with a fresh object URL and download attribute, insert and click
it (or dispatch a synthetic click), then revoke the URL. -/
def saveAs (p : Platform) (st : EngineState) (urlCounter : Nat)
    (nameMap : List (String × String)) (data : Option FileObj) :
    JSRet × List SaveEff :=
  let d : Option FileObj :=
    match data with
    | some b => some b
    | none => st.recordedData
  let fileName : Option String := (nameMap.head?).map Prod.snd
  if p.hasMsSaveOrOpenBlob then
    (JSRet.msSaveOrOpenBlobResult fileName, [SaveEff.callMsSaveOrOpenBlob d fileName])
  else if p.hasMsSaveBlob then
    (JSRet.msSaveBlobResult fileName, [SaveEff.callMsSaveBlob d fileName])
  else
    let url := freshObjectURL urlCounter
    (JSRet.undef,
      [SaveEff.createAnchorElement, SaveEff.createObjectURL d url,
       SaveEff.setHref url, SaveEff.setDownload fileName,
       SaveEff.setStyleHidden, SaveEff.appendChildToBody]
      ++ (if p.anchorClickIsFunction then [SaveEff.clickAnchor]
          else [SaveEff.dispatchSyntheticClick])
      ++ [SaveEff.revokeObjectURL url])

/-- The options bag handed to the constructor: the evented flag (absent,
false or true before construction) plus the remaining caller-supplied
options, which the constructor does not touch. -/
structure OptionsBag where
  evented : Option Bool
  rest : List (String × String)
deriving DecidableEq

/-- Observable effects of the constructor. -/
inductive CtorEff where
  | setEventedTrue
  | superCall (opts : OptionsBag)
deriving DecidableEq

/-- RecordEngine constructor: unconditionally writes
options.evented = true and then delegates to the base Component
constructor.  Passing undefined or null for options makes the property
write itself raise a TypeError (class bodies are strict-mode JS), so
nothing at all is executed in that case. -/
def recordEngineConstructor (opts : Option OptionsBag) :
    Except JSErr (OptionsBag × List CtorEff) :=
  match opts with
  | none => Except.error JSErr.typeErr
  | some o =>
      let o1 := { o with evented := some true }
      Except.ok (o1, [CtorEff.setEventedTrue, CtorEff.superCall o1])

/-! Helper lemmas and sample objects. -/

/-- Extension derivation when the MIME type has no slash: the JS split
yields undefined at index 1 and the concatenation renders it as the
text undefined. -/
theorem jsFileExtension_of_no_subtype (s : String)
    (hs : (jsSplitChar s '/').get? 1 = none) :
    jsFileExtension s = ".undefined" := by
  unfold jsFileExtension
  rw [hs]
  rfl

/-- Extension derivation when the subtype after the slash is empty. -/
theorem jsFileExtension_of_empty_subtype (s : String)
    (hs : (jsSplitChar s '/').get? 1 = some "") :
    jsFileExtension s = "." := by
  unfold jsFileExtension
  rw [hs]
  rfl

/-- Object URLs minted by the browser are non-empty. -/
theorem freshObjectURL_length_pos (c : Nat) : 0 < (freshObjectURL c).length := by
  unfold freshObjectURL
  rw [String.length_append]
  have h5 : ("blob:" : String).length = 5 := rfl
  omega

/-- A writable blob sample: a Blob with the given MIME type on a
platform where all three metadata assignments succeed. -/
def sampleBlob (mime : String) : FileObj :=
  { isBlob := true, isFile := false, type := mime,
    lastModified := none, lastModifiedDate := none, name := none,
    setLastModifiedThrows := none, setLastModifiedDateThrows := none,
    setNameThrows := none }

/-- A non-blob, non-file input (whatever its other fields hold). -/
def sampleNonBlob : FileObj :=
  { isBlob := false, isFile := false, type := "text/plain",
    lastModified := none, lastModifiedDate := none, name := none,
    setLastModifiedThrows := some (JSErr.otherErr 7),
    setLastModifiedDateThrows := some (JSErr.otherErr 7),
    setNameThrows := some (JSErr.otherErr 7) }

/-- A blob whose name assignment raises a non-TypeError error. -/
def sampleBadNameBlob : FileObj :=
  { isBlob := true, isFile := false, type := "audio/ogg",
    lastModified := none, lastModifiedDate := none, name := none,
    setLastModifiedThrows := none, setLastModifiedDateThrows := none,
    setNameThrows := some (JSErr.otherErr 7) }

/-- A blob all of whose metadata assignments raise TypeError, as on
platforms where the fields are getter-only. -/
def sampleReadOnlyBlob : FileObj :=
  { isBlob := true, isFile := false, type := "audio/ogg",
    lastModified := none, lastModifiedDate := none, name := none,
    setLastModifiedThrows := some JSErr.typeErr,
    setLastModifiedDateThrows := some JSErr.typeErr,
    setNameThrows := some JSErr.typeErr }

/-- An assignment outcome covered by the catch clauses: either the
assignment succeeds or it raises the TypeError that is swallowed. -/
def benignOutcome (o : Option JSErr) : Prop :=
  o = none ∨ o = some JSErr.typeErr

/-! Claim theorems. -/

/-- Claim C1: onStopRecording stores the blob as recordedData, then
invokes addFileInfo on it, then invokes dispose (which revokes the URL
of the stored data), and finally triggers the recordComplete event
exactly once, returning undefined.  The hypothesis pins the result of
the in-place addFileInfo mutation of the stored blob. -/
theorem c1_onStopRecording_effect_order (now : Nat) (st : EngineState)
    (data data1 : FileObj) (h : addFileInfo now data = Except.ok data1) :
    onStopRecording now st data =
      Except.ok (⟨some data1⟩,
        [Eff.setRecordedData data, Eff.callAddFileInfo data, Eff.callDispose,
         Eff.revokeObjectURL data1, Eff.triggerEvent "recordComplete"],
        JSRet.undef) ∧
    List.count (Eff.triggerEvent "recordComplete")
      [Eff.setRecordedData data, Eff.callAddFileInfo data, Eff.callDispose,
       Eff.revokeObjectURL data1, Eff.triggerEvent "recordComplete"] = 1 := by
  constructor
  · simp [onStopRecording, h, dispose]
  · simp [List.count_cons]

/-- Claim C1 witness at a concrete blob. -/
theorem c1_witness :
    onStopRecording 1451180941326 ⟨none⟩ (sampleBlob "video/webm") =
      Except.ok (⟨some { sampleBlob "video/webm" with
          lastModified := some 1451180941326,
          lastModifiedDate := some 1451180941326,
          name := some "1451180941326.webm" }⟩,
        [Eff.setRecordedData (sampleBlob "video/webm"),
         Eff.callAddFileInfo (sampleBlob "video/webm"), Eff.callDispose,
         Eff.revokeObjectURL { sampleBlob "video/webm" with
          lastModified := some 1451180941326,
          lastModifiedDate := some 1451180941326,
          name := some "1451180941326.webm" },
         Eff.triggerEvent "recordComplete"],
        JSRet.undef) :=
  (c1_onStopRecording_effect_order 1451180941326 ⟨none⟩ (sampleBlob "video/webm")
    { sampleBlob "video/webm" with
      lastModified := some 1451180941326,
      lastModifiedDate := some 1451180941326,
      name := some "1451180941326.webm" } rfl).1

/-- Claim C2: on a blob with MIME type audio/ogg whose metadata fields
are writable, addFileInfo assigns name = epochMillis plus .ogg, with the
same epochMillis value assigned to lastModified. -/
theorem c2_addFileInfo_audio_ogg (now : Nat) (fo : FileObj)
    (hb : fo.isBlob = true) (ht : fo.type = "audio/ogg")
    (h1 : fo.setLastModifiedThrows = none)
    (h2 : fo.setLastModifiedDateThrows = none)
    (h3 : fo.setNameThrows = none) :
    addFileInfo now fo =
      Except.ok { fo with
        lastModified := some now,
        lastModifiedDate := some now,
        name := some (Nat.repr now ++ ".ogg") } := by
  cases fo
  subst hb ht h1 h2 h3
  rfl

/-- Claim C2 witness at a concrete blob and timestamp. -/
theorem c2_witness :
    addFileInfo 1451180941326 (sampleBlob "audio/ogg") =
      Except.ok { sampleBlob "audio/ogg" with
        lastModified := some 1451180941326,
        lastModifiedDate := some 1451180941326,
        name := some "1451180941326.ogg" } :=
  c2_addFileInfo_audio_ogg 1451180941326 (sampleBlob "audio/ogg") rfl rfl rfl rfl rfl

/-- Claim C3: for MIME type video/webm with codec parameters, the
derived extension is .webm (everything from the first semicolon on is
stripped), so the assigned name is epochMillis plus .webm. -/
theorem c3_addFileInfo_webm_codecs (now : Nat) (fo : FileObj)
    (hb : fo.isBlob = true) (ht : fo.type = "video/webm;codecs=vp9,opus")
    (h1 : fo.setLastModifiedThrows = none)
    (h2 : fo.setLastModifiedDateThrows = none)
    (h3 : fo.setNameThrows = none) :
    jsFileExtension fo.type = ".webm" ∧
    addFileInfo now fo =
      Except.ok { fo with
        lastModified := some now,
        lastModifiedDate := some now,
        name := some (Nat.repr now ++ ".webm") } := by
  cases fo
  subst hb ht h1 h2 h3
  exact ⟨rfl, rfl⟩

/-- Claim C3 witness at a concrete blob and timestamp. -/
theorem c3_witness :
    jsFileExtension "video/webm;codecs=vp9,opus" = ".webm" ∧
    addFileInfo 1451180941326 (sampleBlob "video/webm;codecs=vp9,opus") =
      Except.ok { sampleBlob "video/webm;codecs=vp9,opus" with
        lastModified := some 1451180941326,
        lastModifiedDate := some 1451180941326,
        name := some "1451180941326.webm" } :=
  c3_addFileInfo_webm_codecs 1451180941326
    (sampleBlob "video/webm;codecs=vp9,opus") rfl rfl rfl rfl rfl

/-- Claim C4 counterexample: for the slash-free MIME type audioogg the
JS split has no entry at index 1, and addFileInfo assigns the name
1451180941326.undefined, not the lone-dot name 1451180941326. that the
claim predicts. -/
theorem c4_counterexample :
    (jsSplitChar "audioogg" '/').get? 1 = none ∧
    addFileInfo 1451180941326 (sampleBlob "audioogg") =
      Except.ok { sampleBlob "audioogg" with
        lastModified := some 1451180941326,
        lastModifiedDate := some 1451180941326,
        name := some "1451180941326.undefined" } ∧
    ("1451180941326.undefined" : String) ≠ "1451180941326." :=
  ⟨rfl, rfl, by decide⟩

/-- Claim C4 (amended): on a writable blob, when the MIME type has no
slash the split yields undefined and JS string coercion makes the
extension .undefined, so the assigned name is epochMillis.undefined;
only when the subtype after the slash is empty is the extension the
lone dot and the name epochMillis followed by a dot. -/
theorem c4_amended_degenerate_extension (now : Nat) (fo : FileObj)
    (hb : fo.isBlob = true)
    (h1 : fo.setLastModifiedThrows = none)
    (h2 : fo.setLastModifiedDateThrows = none)
    (h3 : fo.setNameThrows = none) :
    ((jsSplitChar fo.type '/').get? 1 = none →
      addFileInfo now fo =
        Except.ok { fo with
          lastModified := some now,
          lastModifiedDate := some now,
          name := some (Nat.repr now ++ ".undefined") }) ∧
    ((jsSplitChar fo.type '/').get? 1 = some "" →
      addFileInfo now fo =
        Except.ok { fo with
          lastModified := some now,
          lastModifiedDate := some now,
          name := some (Nat.repr now ++ ".") }) := by
  obtain ⟨ib, isf, t, lm, lmd, nm, s1, s2, s3⟩ := fo
  subst hb h1 h2 h3
  constructor
  · intro hs
    have hext := jsFileExtension_of_no_subtype t hs
    simp only [addFileInfo, setTimestampFields, Bool.true_or, if_pos]
    simp only at hext
    simp [hext]
  · intro hs
    have hext := jsFileExtension_of_empty_subtype t hs
    simp only [addFileInfo, setTimestampFields, Bool.true_or, if_pos]
    simp only at hext
    simp [hext]

/-- Claim C4 witness for the amended statement, covering both branches
at concrete inputs. -/
theorem c4_amended_witness :
    addFileInfo 5 (sampleBlob "audioogg") =
      Except.ok { sampleBlob "audioogg" with
        lastModified := some 5,
        lastModifiedDate := some 5,
        name := some "5.undefined" } ∧
    addFileInfo 5 (sampleBlob "audio/") =
      Except.ok { sampleBlob "audio/" with
        lastModified := some 5,
        lastModifiedDate := some 5,
        name := some "5." } :=
  ⟨(c4_amended_degenerate_extension 5 (sampleBlob "audioogg")
      rfl rfl rfl rfl).1 rfl,
   (c4_amended_degenerate_extension 5 (sampleBlob "audio/")
      rfl rfl rfl rfl).2 rfl⟩

/-- Claim C5: constructing a RecordEngine always forces
options.evented = true, whatever the caller supplied, and the
assignment precedes the delegation to the base component constructor
(the trace lists the assignment before the super call). -/
theorem c5_ctor_forces_evented (o : OptionsBag) :
    recordEngineConstructor (some o) =
      Except.ok ({ o with evented := some true },
        [CtorEff.setEventedTrue,
         CtorEff.superCall { o with evented := some true }]) ∧
    (({ o with evented := some true } : OptionsBag).evented = some true) := by
  cases o
  exact ⟨rfl, rfl⟩

/-- Claim C6: a non-blob, non-file input passes the instanceof guard
untouched: addFileInfo returns it unchanged and raises nothing, even
when every property assignment on it would throw. -/
theorem c6_addFileInfo_nonblob_noop (now : Nat) (fo : FileObj)
    (hb : fo.isBlob = false) (hf : fo.isFile = false) :
    addFileInfo now fo = Except.ok fo := by
  obtain ⟨ib, isf, t, lm, lmd, nm, s1, s2, s3⟩ := fo
  subst hb hf
  rfl

/-- Claim C6 witness at a concrete non-blob object whose assignments
would all raise a non-TypeError error. -/
theorem c6_witness : addFileInfo 5 sampleNonBlob = Except.ok sampleNonBlob :=
  c6_addFileInfo_nonblob_noop 5 sampleNonBlob rfl rfl

/-- Claim C7: dispose on an engine whose recordedData is undefined is a
no-op: the state is returned unchanged, no URL revocation effect is
emitted, and the operation is total so it cannot throw. -/
theorem c7_dispose_no_data_noop (st : EngineState)
    (h : st.recordedData = none) : dispose st = (st, []) := by
  cases st
  subst h
  rfl

/-- Claim C7 witness at the fresh engine state. -/
theorem c7_witness : dispose ⟨none⟩ = (⟨none⟩, []) :=
  c7_dispose_no_data_noop ⟨none⟩ rfl

/-- Claim C8: inside the two try blocks of addFileInfo a TypeError from
a property assignment is caught and discarded so execution continues to
a normal return, while an error of any other type raised by the same
assignments is re-raised to the caller unchanged (the lastModifiedDate
assignment is only reached when the lastModified assignment succeeded,
and the name assignment only after the first block finished benignly). -/
theorem c8_addFileInfo_error_policy (now : Nat) (fo : FileObj)
    (hb : fo.isBlob = true) :
    ((benignOutcome fo.setLastModifiedThrows →
      benignOutcome fo.setLastModifiedDateThrows →
      benignOutcome fo.setNameThrows →
      ∃ fo1, addFileInfo now fo = Except.ok fo1) ∧
     (∀ e, e ≠ JSErr.typeErr → fo.setLastModifiedThrows = some e →
        addFileInfo now fo = Except.error e) ∧
     (∀ e, e ≠ JSErr.typeErr → fo.setLastModifiedThrows = none →
        fo.setLastModifiedDateThrows = some e →
        addFileInfo now fo = Except.error e) ∧
     (∀ e, e ≠ JSErr.typeErr → benignOutcome fo.setLastModifiedThrows →
        benignOutcome fo.setLastModifiedDateThrows →
        fo.setNameThrows = some e →
        addFileInfo now fo = Except.error e)) := by
  obtain ⟨ib, isf, t, lm, lmd, nm, s1, s2, s3⟩ := fo
  subst hb
  refine ⟨?_, ?_, ?_, ?_⟩
  · rintro (rfl | rfl) (h2 | rfl) (h3 | rfl) <;>
      first
        | (subst h2 h3; exact ⟨_, rfl⟩)
        | (try subst h2); (try subst h3); exact ⟨_, rfl⟩
  · rintro e he rfl
    cases e with
    | typeErr => exact absurd rfl he
    | otherErr n => rfl
  · rintro e he rfl rfl
    cases e with
    | typeErr => exact absurd rfl he
    | otherErr n => rfl
  · rintro e he hb1 hb2 rfl
    cases e with
    | typeErr => exact absurd rfl he
    | otherErr n =>
        rcases hb1 with rfl | rfl <;> rcases hb2 with rfl | rfl <;> rfl

/-- Claim C8 witness: a non-TypeError from the name assignment is
re-raised unchanged, while a blob whose assignments all raise TypeError
still completes normally. -/
theorem c8_witness :
    addFileInfo 5 sampleBadNameBlob = Except.error (JSErr.otherErr 7) ∧
    (∃ fo1, addFileInfo 5 sampleReadOnlyBlob = Except.ok fo1) := by
  constructor
  · exact (c8_addFileInfo_error_policy 5 sampleBadNameBlob rfl).2.2.2
      (JSErr.otherErr 7) (by decide) (Or.inl rfl) (Or.inl rfl) rfl
  · exact (c8_addFileInfo_error_policy 5 sampleReadOnlyBlob rfl).1
      (Or.inr rfl) (Or.inr rfl) (Or.inr rfl)

/-- Claim C9: with both legacy blob-save APIs absent, saveAs emits
exactly one anchor-creation effect, sets its download attribute to the
first value of the name mapping and its href to the freshly minted
non-empty object URL, revokes that URL as the last step before
returning undefined; with a legacy API present it delegates to that API
and returns its result, creating no anchor. -/
theorem c9_saveAs_behavior (p : Platform) (st : EngineState) (c : Nat)
    (k v : String) (restMap : List (String × String)) (b : FileObj) :
    ((p.hasMsSaveOrOpenBlob = false → p.hasMsSaveBlob = false →
       (saveAs p st c ((k, v) :: restMap) (some b)).1 = JSRet.undef ∧
       List.count SaveEff.createAnchorElement
         (saveAs p st c ((k, v) :: restMap) (some b)).2 = 1 ∧
       SaveEff.setDownload (some v) ∈ (saveAs p st c ((k, v) :: restMap) (some b)).2 ∧
       SaveEff.setHref (freshObjectURL c) ∈ (saveAs p st c ((k, v) :: restMap) (some b)).2 ∧
       0 < (freshObjectURL c).length ∧
       ((saveAs p st c ((k, v) :: restMap) (some b)).2).getLast? =
         some (SaveEff.revokeObjectURL (freshObjectURL c))) ∧
     (p.hasMsSaveOrOpenBlob = true →
       saveAs p st c ((k, v) :: restMap) (some b) =
         (JSRet.msSaveOrOpenBlobResult (some v),
          [SaveEff.callMsSaveOrOpenBlob (some b) (some v)])) ∧
     (p.hasMsSaveOrOpenBlob = false → p.hasMsSaveBlob = true →
       saveAs p st c ((k, v) :: restMap) (some b) =
         (JSRet.msSaveBlobResult (some v),
          [SaveEff.callMsSaveBlob (some b) (some v)]))) := by
  obtain ⟨h1, h2, h3⟩ := p
  refine ⟨?_, ?_, ?_⟩
  · rintro rfl rfl
    refine ⟨?_, ?_, ?_, ?_, freshObjectURL_length_pos c, ?_⟩ <;>
      cases h3 <;> simp [saveAs, List.count_cons]
  · rintro rfl
    rfl
  · rintro rfl rfl
    rfl

/-- Claim C9 witness: the anchor path at a concrete platform, state and
name map, and delegation on a platform exposing msSaveOrOpenBlob. -/
theorem c9_witness :
    List.count SaveEff.createAnchorElement
      (saveAs ⟨false, false, true⟩ ⟨none⟩ 0 [("video", "clip")]
        (some (sampleBlob "video/webm"))).2 = 1 ∧
    SaveEff.setDownload (some "clip") ∈
      (saveAs ⟨false, false, true⟩ ⟨none⟩ 0 [("video", "clip")]
        (some (sampleBlob "video/webm"))).2 ∧
    ((saveAs ⟨false, false, true⟩ ⟨none⟩ 0 [("video", "clip")]
        (some (sampleBlob "video/webm"))).2).getLast? =
      some (SaveEff.revokeObjectURL (freshObjectURL 0)) ∧
    saveAs ⟨true, false, true⟩ ⟨none⟩ 0 [("video", "clip")]
        (some (sampleBlob "video/webm")) =
      (JSRet.msSaveOrOpenBlobResult (some "clip"),
       [SaveEff.callMsSaveOrOpenBlob (some (sampleBlob "video/webm")) (some "clip")]) := by
  have h := c9_saveAs_behavior ⟨false, false, true⟩ ⟨none⟩ 0 "video" "clip" []
    (sampleBlob "video/webm")
  have hd := c9_saveAs_behavior ⟨true, false, true⟩ ⟨none⟩ 0 "video" "clip" []
    (sampleBlob "video/webm")
  exact ⟨(h.1 rfl rfl).2.1, (h.1 rfl rfl).2.2.1, (h.1 rfl rfl).2.2.2.2.2,
    hd.2.1 rfl⟩

/-- Claim C10: constructing a RecordEngine with undefined or null
options throws a TypeError, because the unconditional write of
options.evented is the first statement executed; nothing is defaulted. -/
theorem c10_ctor_nil_options_throws :
    recordEngineConstructor none = Except.error JSErr.typeErr := rfl
